import Mathlib

/-!
Verification of the CAS ticket-validation core (`mama_cas/mixins.py`).

The data model and the three validators of `TicketValidateMixin`, together
with the attribute extraction of `CustomAttributesMixin`, are embedded
shallowly.  The ticket store (`mama_cas/models.py`, the manager objects
`ServiceTicket.objects`, `ProxyTicket.objects`,
`ProxyGrantingTicket.objects`) is not part of the source tree, so its
`validate_ticket` operations are kept abstract (fields of a `TicketStore`
record) and its `create_ticket` operations are modelled from the spec's
interface description.  Errors raised by the store are modelled with
`Except`; a validator result carries, besides the returned tuple, the list
of ticket-creation calls the validator performed, so that side effects on
the store are observable.
-/

namespace MamaCas

/-- The error kinds the ticket store can raise
(`mama_cas/exceptions.py`, imported at the top of `mixins.py`). -/
inductive CasError where
  | invalidRequest
  | invalidTicket
  | invalidService
  | internal
  | badPGT
  deriving Repr, DecidableEq

/-- A validated `ServiceTicket` as the store returns it: opaque ticket
string, target service identifier, owning user, renewal flag.  Service
identifiers are `Option String` because they originate from
`request.GET.get`, which yields `None` for a missing parameter. -/
structure ServiceTicket where
  ticket : String
  service : Option String
  user : String
  renew : Bool
  deriving Repr, DecidableEq

mutual
/-- A `ProxyTicket`: opaque string, target service identifier, owning
user, and the `granted_by_pgt` back-reference (never null for tickets
created through this core). -/
inductive ProxyTicket where
  | mk (ticket : String) (service : Option String) (user : String)
      (granted_by_pgt : ProxyGrantingTicket)

/-- A `ProxyGrantingTicket`: opaque string, owning user, callback URL,
and the two nullable spawning back-references `granted_by_st` and
`granted_by_pt`. -/
inductive ProxyGrantingTicket where
  | mk (ticket : String) (user : String) (pgturl : Option String)
      (granted_by_st : Option ServiceTicket) (granted_by_pt : Option ProxyTicket)
end

def ProxyTicket.ticket : ProxyTicket → String
  | .mk t _ _ _ => t

def ProxyTicket.service : ProxyTicket → Option String
  | .mk _ s _ _ => s

def ProxyTicket.user : ProxyTicket → String
  | .mk _ _ u _ => u

def ProxyTicket.granted_by_pgt : ProxyTicket → ProxyGrantingTicket
  | .mk _ _ _ g => g

def ProxyGrantingTicket.ticket : ProxyGrantingTicket → String
  | .mk t _ _ _ _ => t

def ProxyGrantingTicket.user : ProxyGrantingTicket → String
  | .mk _ u _ _ _ => u

def ProxyGrantingTicket.pgturl : ProxyGrantingTicket → Option String
  | .mk _ _ p _ _ => p

def ProxyGrantingTicket.granted_by_st : ProxyGrantingTicket → Option ServiceTicket
  | .mk _ _ _ st _ => st

def ProxyGrantingTicket.granted_by_pt : ProxyGrantingTicket → Option ProxyTicket
  | .mk _ _ _ _ pt => pt

/-- A ticket-creation call made by a validator on the ticket store,
recorded so that store side effects are observable. -/
inductive CreationEvent where
  | pgt (t : ProxyGrantingTicket)
  | pt (t : ProxyTicket)

/-- The GET parameters of an incoming request
(`request.GET.get` yields `None` when a parameter is absent). -/
structure Request where
  service : Option String := none
  ticket : Option String := none
  renew : Option String := none
  pgtUrl : Option String := none
  pgt : Option String := none
  targetService : Option String := none

/-- Python truthiness of an optional string, as in `if pgturl:`:
`None` and the empty string are falsy. -/
def truthy : Option String → Bool
  | none => false
  | some s => !s.isEmpty

/-- The exception classes caught by `validate_service_ticket` and
`validate_proxy_ticket` (`mixins.py` lines 52-53 and 83-84). -/
def caughtByStPt : CasError → Bool
  | .invalidRequest => true
  | .invalidTicket => true
  | .invalidService => true
  | .internal => true
  | .badPGT => false

/-- The exception classes caught by `validate_proxy_granting_ticket`
(`mixins.py` line 119). -/
def caughtByPgt : CasError → Bool
  | .invalidRequest => true
  | .badPGT => true
  | .internal => true
  | _ => false

/-- The ticket store's validation operations, kept abstract: the mixin
code only calls them and distinguishes success from a raised error.
`fresh_pgt_str` / `fresh_pt_str` are the opaque ticket strings the store
assigns to newly created tickets. -/
structure TicketStore where
  st_validate_ticket : Option String → Option String → Option String →
    Except CasError ServiceTicket
  pt_validate_ticket : Option String → Option String → Except CasError ProxyTicket
  pgt_validate_ticket : Option String → Option String →
    Except CasError ProxyGrantingTicket
  fresh_pgt_str : String
  fresh_pt_str : String

/-- Modelled from the spec: the store's
`create_proxy_granting_ticket(callback_url, user, granted_by_st)`
(`mama_cas/models.py` is not in the source tree).  The spec's interface
returns a `ProxyGrantingTicket` carrying the passed callback URL, user
and spawning back-reference. -/
def TicketStore.create_pgt_from_st (store : TicketStore) (url : Option String)
    (user : String) (st : ServiceTicket) : ProxyGrantingTicket :=
  ProxyGrantingTicket.mk store.fresh_pgt_str user url (some st) none

/-- Modelled from the spec: the store's
`create_proxy_granting_ticket(callback_url, user, granted_by_pt)`
(`mama_cas/models.py` is not in the source tree). -/
def TicketStore.create_pgt_from_pt (store : TicketStore) (url : Option String)
    (user : String) (pt : ProxyTicket) : ProxyGrantingTicket :=
  ProxyGrantingTicket.mk store.fresh_pgt_str user url none (some pt)

/-- Modelled from the spec: the store's
`create_proxy_ticket(service, user, granted_by_pgt)`
(`mama_cas/models.py` is not in the source tree). -/
def TicketStore.create_proxy_ticket (store : TicketStore) (service : Option String)
    (user : String) (pgt : ProxyGrantingTicket) : ProxyTicket :=
  ProxyTicket.mk store.fresh_pt_str service user pgt

/-- `TicketValidateMixin.validate_service_ticket` (`mixins.py` lines 34-64).
The first component is the returned triplet (or a re-raised error the
`except` clause does not catch); the second lists the creation calls
performed on the store. -/
def validate_service_ticket (store : TicketStore) (request : Request) :
    Except CasError
      (Option ServiceTicket × Option ProxyGrantingTicket × Option CasError) ×
    List CreationEvent :=
  match store.st_validate_ticket request.ticket request.service request.renew with
  | .error e =>
      if caughtByStPt e then (.ok (none, none, some e), [])
      else (.error e, [])
  | .ok st =>
      if truthy request.pgtUrl then
        let pgt := store.create_pgt_from_st request.pgtUrl st.user st
        (.ok (some st, some pgt, none), [.pgt pgt])
      else
        (.ok (some st, none, none), [])

/-- The `while prior_pt:` loop of `validate_proxy_ticket`
(`mixins.py` lines 90-94): `acc` is the `proxies` list built so far and
the argument is the current `prior_pt`; each iteration appends
`prior_pt.service` and follows `prior_pt.granted_by_pgt.granted_by_pt`. -/
def buildProxiesLoop (acc : List (Option String)) :
    Option ProxyTicket → List (Option String)
  | none => acc
  | some (.mk _ s _ (.mk _ _ _ _ next)) => buildProxiesLoop (acc ++ [s]) next

/-- `TicketValidateMixin.validate_proxy_ticket` (`mixins.py` lines 66-103). -/
def validate_proxy_ticket (store : TicketStore) (request : Request) :
    Except CasError
      (Option ProxyTicket × Option ProxyGrantingTicket ×
       Option (List (Option String)) × Option CasError) ×
    List CreationEvent :=
  match store.pt_validate_ticket request.ticket request.service with
  | .error e =>
      if caughtByStPt e then (.ok (none, none, none, some e), [])
      else (.error e, [])
  | .ok pt =>
      let proxies := buildProxiesLoop [pt.service] pt.granted_by_pgt.granted_by_pt
      if truthy request.pgtUrl then
        let pgt := store.create_pgt_from_pt request.pgtUrl pt.user pt
        (.ok (some pt, some pgt, some proxies, none), [.pgt pgt])
      else
        (.ok (some pt, none, some proxies, none), [])

/-- `TicketValidateMixin.validate_proxy_granting_ticket`
(`mixins.py` lines 105-126). -/
def validate_proxy_granting_ticket (store : TicketStore) (request : Request) :
    Except CasError (Option ProxyTicket × Option CasError) × List CreationEvent :=
  match store.pgt_validate_ticket request.pgt request.targetService with
  | .error e =>
      if caughtByPgt e then (.ok (none, some e), [])
      else (.error e, [])
  | .ok pgt =>
      let pt := store.create_proxy_ticket request.targetService pgt.user pgt
      (.ok (some pt, none), [.pt pt])

/-! ## Spec-side description of the proxy chain

The spec describes the proxy chain as: the validated ticket's own service
identifier, followed by the service identifier of each prior `ProxyTicket`
reached by repeatedly following `granted_by_pgt.granted_by_pt` until that
reference is null.  These definitions follow the spec's words, to be
compared with the loop translated from the code. -/

/-- The service identifiers of the prior proxy tickets reached by
repeatedly following `granted_by_pgt.granted_by_pt` until null
(spec-side description). -/
def priorChainServices : Option ProxyTicket → List (Option String)
  | none => []
  | some (.mk _ s _ (.mk _ _ _ _ next)) => s :: priorChainServices next

/-- The proxy chain as the spec describes it: the validated ticket's own
service first, then the prior tickets' services. -/
def specProxyChain (pt : ProxyTicket) : List (Option String) :=
  pt.service :: priorChainServices pt.granted_by_pgt.granted_by_pt

/-- The number of delegation hops of a `ProxyTicket`: one for the ticket
itself plus one for each prior `ProxyTicket` in its provenance chain. -/
def delegationHops : ProxyTicket → Nat
  | .mk _ _ _ (.mk _ _ _ _ none) => 1
  | .mk _ _ _ (.mk _ _ _ _ (some prior)) => 1 + delegationHops prior

/-! ## Operational (pointer) model of the chain-reconstruction loop

The inductive `ProxyTicket` type is acyclic by construction, but the
Python loop follows object references that could, in a corrupted store,
form a cycle.  To examine the loop's behaviour on such inputs, the ticket
records are placed in a heap addressed by identifiers, and the loop is run
with explicit fuel: `none` means the loop has not produced a result within
the given number of iterations. -/

/-- A `ProxyTicket` row: its service and the id of its
`granted_by_pgt`. -/
structure PtRec where
  service : Option String
  granted_by_pgt : Nat
  deriving Repr

/-- A `ProxyGrantingTicket` row: the id of its nullable
`granted_by_pt`. -/
structure PgtRec where
  granted_by_pt : Option Nat
  deriving Repr

/-- The ticket rows, addressed by id. -/
structure Heap where
  pts : Nat → PtRec
  pgts : Nat → PgtRec

/-- The `while prior_pt:` loop run on the heap with fuel: `acc` is the
`proxies` list built so far, the `Option Nat` is the id of the current
`prior_pt`.  A result `none` means the loop has not terminated within the
given number of iterations. -/
def loopFuel (h : Heap) : List (Option String) → Option Nat → Nat →
    Option (List (Option String))
  | _, _, 0 => none
  | acc, none, _ + 1 => some acc
  | acc, some i, n + 1 =>
      let r := h.pts i
      loopFuel h (acc ++ [r.service]) (h.pgts r.granted_by_pgt).granted_by_pt n

/-- `Chain h cur l`: following `granted_by_pgt.granted_by_pt` from `cur`
reaches null after finitely many steps, visiting proxy tickets whose
services are `l` in order; this is the spec's finite, acyclic
back-reference chain. -/
inductive Chain (h : Heap) : Option Nat → List (Option String) → Prop
  | nil : Chain h none []
  | cons (i : Nat) (l : List (Option String))
      (hl : Chain h ((h.pgts (h.pts i).granted_by_pgt).granted_by_pt) l) :
      Chain h (some i) ((h.pts i).service :: l)

/-- A heap with a single proxy ticket whose
`granted_by_pgt.granted_by_pt` points back to itself: the smallest cyclic
back-reference chain. -/
def cyclicHeap : Heap where
  pts := fun _ => { service := some "https://p.example", granted_by_pgt := 0 }
  pgts := fun _ => { granted_by_pt := some 0 }

/-- On `cyclicHeap`, starting from ticket 0, the loop produces no result
within any number of iterations: it loops forever and in particular never
produces an `InternalError`. -/
def cyclicLoopNeverReturns : Prop :=
  ∀ n : Nat, loopFuel cyclicHeap [some "https://p.example"] (some 0) n = none

/-! ## Attribute extraction (`CustomAttributesMixin`) -/

/-- A user profile object: `attrs` models `getattr`, with `none` for an
attribute access that raises `AttributeError`. -/
structure Profile where
  attrs : String → Option String

/-- A `User` object: `getattr` over its attributes, and `get_profile()`,
where `none` models `ObjectDoesNotExist` / `SiteProfileNotAvailable`. -/
structure UserObj where
  attrs : String → Option String
  profile : Option Profile

/-- A validated ticket as seen by `get_custom_attributes`: only its
`user` is accessed. -/
structure AttrTicket where
  user : UserObj

/-- The two settings lists of (name, attribute) pairs;
`getattr(settings, ..., ())` defaults them to empty. -/
structure CasSettings where
  MAMA_CAS_USER_ATTRIBUTES : List (String × String) := []
  MAMA_CAS_PROFILE_ATTRIBUTES : List (String × String) := []

/-- The body of the two `for (name, key)` loops of
`get_custom_attributes` (`mixins.py` lines 157-163 and 171-177): try
`getattr`, skip the pair on `AttributeError`, otherwise append
`[name, value]`. -/
def collectAttrs (lookup : String → Option String) :
    List (String × String) → List (String × String)
  | [] => []
  | (name, key) :: rest =>
      match lookup key with
      | none => collectAttrs lookup rest
      | some v => (name, v) :: collectAttrs lookup rest

/-- `CustomAttributesMixin.get_custom_attributes`
(`mixins.py` lines 132-179). -/
def get_custom_attributes (settings : CasSettings) (ticket : Option AttrTicket) :
    Option (List (String × String)) :=
  match ticket with
  | none => none
  | some t =>
      let user := t.user
      let userAttrs := collectAttrs user.attrs settings.MAMA_CAS_USER_ATTRIBUTES
      match user.profile with
      | none => some userAttrs
      | some profile =>
          some (userAttrs ++
            collectAttrs profile.attrs settings.MAMA_CAS_PROFILE_ATTRIBUTES)

/-- Spec-side description of one attribute list's result: the
successfully resolved `(label, value)` pairs, in the order the `(label,
field)` pairs appear in the configured list, with unresolvable fields
omitted. -/
def resolvedPairs (lookup : String → Option String)
    (l : List (String × String)) : List (String × String) :=
  l.filterMap fun nk => (lookup nk.2).map fun v => (nk.1, v)

/-! ## Concrete fixtures

A two-hop delegation chain following the spec's scenario: a
`ServiceTicket` for `https://a.example` spawned a PGT, from which a
`ProxyTicket` for `https://b.example` was issued; that ticket spawned a
second PGT, from which a `ProxyTicket` for `https://c.example` was
issued. -/

def stA : ServiceTicket :=
  { ticket := "ST-1", service := some "https://a.example", user := "bob",
    renew := false }

def pgtFromA : ProxyGrantingTicket :=
  ProxyGrantingTicket.mk "PGT-A" "bob" (some "https://cb.example") (some stA) none

def ptB : ProxyTicket :=
  ProxyTicket.mk "PT-B" (some "https://b.example") "bob" pgtFromA

def pgtFromB : ProxyGrantingTicket :=
  ProxyGrantingTicket.mk "PGT-B" "bob" (some "https://cb2.example") none (some ptB)

def ptC : ProxyTicket :=
  ProxyTicket.mk "PT-C" (some "https://c.example") "bob" pgtFromB

/-- A store on which every validation succeeds, returning the fixture
tickets. -/
def okStore : TicketStore :=
  { st_validate_ticket := fun _ _ _ => .ok stA
    pt_validate_ticket := fun _ _ => .ok ptC
    pgt_validate_ticket := fun _ _ => .ok pgtFromA
    fresh_pgt_str := "PGT-NEW"
    fresh_pt_str := "PT-NEW" }

/-- A store on which every validation raises. -/
def errStore : TicketStore :=
  { st_validate_ticket := fun _ _ _ => .error .invalidTicket
    pt_validate_ticket := fun _ _ => .error .internal
    pgt_validate_ticket := fun _ _ => .error .badPGT
    fresh_pgt_str := "PGT-NEW"
    fresh_pt_str := "PT-NEW" }

/-- A request without a `pgtUrl` callback. -/
def reqNoCb : Request :=
  { service := some "https://c.example", ticket := some "PT-C",
    pgt := some "PGT-A", targetService := some "https://t.example" }

/-- A request with a `pgtUrl` callback. -/
def reqCb : Request :=
  { service := some "https://c.example", ticket := some "PT-C",
    pgtUrl := some "https://cb.example",
    pgt := some "PGT-A", targetService := some "https://t.example" }

/-- A heap holding the acyclic two-hop chain
(`https://c.example` at id 0, `https://b.example` at id 1). -/
def chainHeap : Heap where
  pts := fun i =>
    match i with
    | 0 => { service := some "https://c.example", granted_by_pgt := 0 }
    | _ => { service := some "https://b.example", granted_by_pgt := 1 }
  pgts := fun i =>
    match i with
    | 0 => { granted_by_pt := some 1 }
    | _ => { granted_by_pt := none }

/-- Settings with both attribute lists left at their empty default. -/
def emptySettings : CasSettings := {}

/-- A concrete profile exposing a `phone` attribute. -/
def bobProfile : Profile :=
  { attrs := fun k => if k = "phone" then some "555-0100" else none }

/-- A concrete user exposing `email` and `username` attributes and a
linked profile. -/
def bobUser : UserObj :=
  { attrs := fun k =>
      if k = "email" then some "bob@example.com"
      else if k = "username" then some "bob" else none,
    profile := some bobProfile }

/-- A validated ticket owned by `bobUser`. -/
def bobTicket : AttrTicket := { user := bobUser }

/-! ## Helper lemmas -/

/-- The accumulator-passing loop computes the accumulator followed by the
spec-side chain of prior services. -/
theorem buildProxiesLoop_eq : ∀ (o : Option ProxyTicket) (acc : List (Option String)),
    buildProxiesLoop acc o = acc ++ priorChainServices o
  | none, acc => by simp [buildProxiesLoop, priorChainServices]
  | some (.mk _ s _ (.mk _ _ _ _ next)), acc => by
      rw [buildProxiesLoop, priorChainServices, buildProxiesLoop_eq next]
      simp

/-- Unfolding `priorChainServices` at a non-null reference. -/
theorem priorChainServices_some : ∀ p : ProxyTicket,
    priorChainServices (some p) =
      p.service :: priorChainServices p.granted_by_pgt.granted_by_pt
  | .mk _ _ _ (.mk _ _ _ _ _) => by
      simp [priorChainServices, ProxyTicket.service, ProxyTicket.granted_by_pgt,
        ProxyGrantingTicket.granted_by_pt]

/-- The hop count is one more than the number of prior services. -/
theorem delegationHops_eq : ∀ pt : ProxyTicket,
    delegationHops pt = 1 + (priorChainServices pt.granted_by_pgt.granted_by_pt).length
  | .mk _ _ _ (.mk _ _ _ _ none) => by
      simp [delegationHops, priorChainServices, ProxyTicket.granted_by_pgt,
        ProxyGrantingTicket.granted_by_pt]
  | .mk _ _ _ (.mk _ _ _ _ (some prior)) => by
      rw [delegationHops, delegationHops_eq prior]
      simp [priorChainServices_some, ProxyTicket.granted_by_pgt,
        ProxyGrantingTicket.granted_by_pt]
      omega

/-- The loop body applied to a concatenation processes the two parts in
order. -/
theorem collectAttrs_append (lookup : String → Option String)
    (a b : List (String × String)) :
    collectAttrs lookup (a ++ b) = collectAttrs lookup a ++ collectAttrs lookup b := by
  induction a with
  | nil => simp [collectAttrs]
  | cons hd tl ih =>
      obtain ⟨name, key⟩ := hd
      cases h : lookup key <;> simp [collectAttrs, h, ih]

/-- The loop translation agrees with the spec-side `resolvedPairs`. -/
theorem collectAttrs_eq_resolvedPairs (lookup : String → Option String)
    (l : List (String × String)) :
    collectAttrs lookup l = resolvedPairs lookup l := by
  induction l with
  | nil => simp [collectAttrs, resolvedPairs]
  | cons hd tl ih =>
      obtain ⟨name, key⟩ := hd
      cases h : lookup key <;>
        simp [collectAttrs, resolvedPairs, h, ih, List.filterMap_cons]

/-- On the cyclic heap the loop never produces a result, whatever the
fuel and the accumulator. -/
theorem cyclicHeap_loop_none : ∀ (n : Nat) (acc : List (Option String)),
    loopFuel cyclicHeap acc (some 0) n = none
  | 0, _ => rfl
  | n + 1, acc => by
      rw [loopFuel]
      exact cyclicHeap_loop_none n _

/-- On a finite, acyclic back-reference chain the loop terminates once
the fuel exceeds the chain length, returning the accumulator followed by
the chain. -/
theorem loopFuel_chain (h : Heap) {cur : Option Nat} {l : List (Option String)}
    (hch : Chain h cur l) :
    ∀ (acc : List (Option String)) (n : Nat), l.length + 1 ≤ n →
      loopFuel h acc cur n = some (acc ++ l) := by
  induction hch with
  | nil =>
      intro acc n hn
      match n, hn with
      | m + 1, _ => simp [loopFuel]
  | cons i l hl ih =>
      intro acc n hn
      match n, hn with
      | m + 1, hn =>
          rw [loopFuel]
          rw [ih (acc ++ [(h.pts i).service]) m (by simp at hn; omega)]
          simp

/-- The concrete two-hop heap chain from id 0:
`https://c.example` then `https://b.example`. -/
theorem chainHeap_chain :
    Chain chainHeap (some 0) [some "https://c.example", some "https://b.example"] :=
  Chain.cons 0 [some "https://b.example"] (Chain.cons 1 [] Chain.nil)

/-! ## Claim theorems -/

/-- C1: on a successful proxy-ticket validation, the returned proxy
chain is exactly the validated ticket's own service followed by the
services of the prior proxy tickets reached through
`granted_by_pgt.granted_by_pt` until null; it is never empty, starts
with the validated ticket's service, has exactly one element when the
PGT origin is not a proxy ticket, and its length equals the number of
delegation hops. -/
theorem proxy_ticket_validator_chain (store : TicketStore) (request : Request)
    (pt : ProxyTicket)
    (hv : store.pt_validate_ticket request.ticket request.service = Except.ok pt) :
    (∃ pgtIssued events, validate_proxy_ticket store request =
      (.ok (some pt, pgtIssued, some (specProxyChain pt), none), events)) ∧
    specProxyChain pt ≠ [] ∧
    (specProxyChain pt).head? = some pt.service ∧
    (pt.granted_by_pgt.granted_by_pt = none → (specProxyChain pt).length = 1) ∧
    (specProxyChain pt).length = delegationHops pt := by
  have hb : buildProxiesLoop [pt.service] pt.granted_by_pgt.granted_by_pt =
      specProxyChain pt := by
    rw [buildProxiesLoop_eq]; rfl
  refine ⟨?_, ?_, ?_, ?_, ?_⟩
  · cases htr : truthy request.pgtUrl
    · exact ⟨none, [], by simp [validate_proxy_ticket, hv, htr, hb]⟩
    · exact ⟨some (store.create_pgt_from_pt request.pgtUrl pt.user pt),
        [CreationEvent.pgt (store.create_pgt_from_pt request.pgtUrl pt.user pt)],
        by simp [validate_proxy_ticket, hv, htr, hb]⟩
  · simp [specProxyChain]
  · simp [specProxyChain]
  · intro h
    simp [specProxyChain, h, priorChainServices]
  · rw [delegationHops_eq]
    simp [specProxyChain]
    omega

/-- Witness for C1 on the concrete two-hop chain. -/
theorem proxy_ticket_validator_chain_witness :
    okStore.pt_validate_ticket reqNoCb.ticket reqNoCb.service = Except.ok ptC ∧
    ((∃ pgtIssued events, validate_proxy_ticket okStore reqNoCb =
      (.ok (some ptC, pgtIssued, some (specProxyChain ptC), none), events)) ∧
    specProxyChain ptC ≠ [] ∧
    (specProxyChain ptC).head? = some ptC.service ∧
    (ptC.granted_by_pgt.granted_by_pt = none → (specProxyChain ptC).length = 1) ∧
    (specProxyChain ptC).length = delegationHops ptC) :=
  ⟨rfl, proxy_ticket_validator_chain okStore reqNoCb ptC rfl⟩

/-- C2: a store error from the relevant caught set is returned in the
error slot of the validator's tuple with every other slot null, and is
not re-raised past the validator. -/
theorem validators_catch_store_errors (store : TicketStore) (request : Request)
    (e1 e2 e3 : CasError)
    (h1 : store.st_validate_ticket request.ticket request.service request.renew =
      Except.error e1)
    (hc1 : caughtByStPt e1 = true)
    (h2 : store.pt_validate_ticket request.ticket request.service = Except.error e2)
    (hc2 : caughtByStPt e2 = true)
    (h3 : store.pgt_validate_ticket request.pgt request.targetService =
      Except.error e3)
    (hc3 : caughtByPgt e3 = true) :
    validate_service_ticket store request = (.ok (none, none, some e1), []) ∧
    validate_proxy_ticket store request = (.ok (none, none, none, some e2), []) ∧
    validate_proxy_granting_ticket store request = (.ok (none, some e3), []) := by
  refine ⟨?_, ?_, ?_⟩
  · simp [validate_service_ticket, h1, hc1]
  · simp [validate_proxy_ticket, h2, hc2]
  · simp [validate_proxy_granting_ticket, h3, hc3]

/-- Witness for C2 on a store whose validations raise
`InvalidTicketError`, `InternalError` and `BadPGTError`. -/
theorem validators_catch_store_errors_witness :
    errStore.st_validate_ticket reqCb.ticket reqCb.service reqCb.renew =
      Except.error CasError.invalidTicket ∧
    caughtByStPt CasError.invalidTicket = true ∧
    errStore.pt_validate_ticket reqCb.ticket reqCb.service =
      Except.error CasError.internal ∧
    caughtByStPt CasError.internal = true ∧
    errStore.pgt_validate_ticket reqCb.pgt reqCb.targetService =
      Except.error CasError.badPGT ∧
    caughtByPgt CasError.badPGT = true ∧
    (validate_service_ticket errStore reqCb =
      (.ok (none, none, some CasError.invalidTicket), []) ∧
    validate_proxy_ticket errStore reqCb =
      (.ok (none, none, none, some CasError.internal), []) ∧
    validate_proxy_granting_ticket errStore reqCb =
      (.ok (none, some CasError.badPGT), [])) :=
  ⟨rfl, rfl, rfl, rfl, rfl, rfl,
    validators_catch_store_errors errStore reqCb _ _ _ rfl rfl rfl rfl rfl rfl⟩

/-- C3: for both the service- and the proxy-ticket validator, a PGT is
issued exactly when a callback URL is supplied on a successful
validation; the issued PGT's spawning origin is the validated ticket,
and a success without callback returns a null PGT beside the non-null
validated ticket. -/
theorem pgt_issuance_iff_callback (store : TicketStore) (request : Request)
    (st : ServiceTicket) (pt : ProxyTicket)
    (hst : store.st_validate_ticket request.ticket request.service request.renew =
      Except.ok st)
    (hpt : store.pt_validate_ticket request.ticket request.service = Except.ok pt) :
    (truthy request.pgtUrl = true →
      validate_service_ticket store request =
        (.ok (some st, some (store.create_pgt_from_st request.pgtUrl st.user st), none),
         [.pgt (store.create_pgt_from_st request.pgtUrl st.user st)]) ∧
      (store.create_pgt_from_st request.pgtUrl st.user st).granted_by_st = some st ∧
      validate_proxy_ticket store request =
        (.ok (some pt, some (store.create_pgt_from_pt request.pgtUrl pt.user pt),
          some (specProxyChain pt), none),
         [.pgt (store.create_pgt_from_pt request.pgtUrl pt.user pt)]) ∧
      (store.create_pgt_from_pt request.pgtUrl pt.user pt).granted_by_pt = some pt) ∧
    (truthy request.pgtUrl = false →
      validate_service_ticket store request = (.ok (some st, none, none), []) ∧
      validate_proxy_ticket store request =
        (.ok (some pt, none, some (specProxyChain pt), none), [])) := by
  have hb : buildProxiesLoop [pt.service] pt.granted_by_pgt.granted_by_pt =
      specProxyChain pt := by
    rw [buildProxiesLoop_eq]; rfl
  constructor
  · intro htr
    refine ⟨?_, ?_, ?_, ?_⟩
    · simp [validate_service_ticket, hst, htr]
    · simp [TicketStore.create_pgt_from_st, ProxyGrantingTicket.granted_by_st]
    · simp [validate_proxy_ticket, hpt, htr, hb]
    · simp [TicketStore.create_pgt_from_pt, ProxyGrantingTicket.granted_by_pt]
  · intro htr
    exact ⟨by simp [validate_service_ticket, hst, htr],
           by simp [validate_proxy_ticket, hpt, htr, hb]⟩

/-- Witness for C3 on the concrete fixtures with a callback URL. -/
theorem pgt_issuance_iff_callback_witness :
    okStore.st_validate_ticket reqCb.ticket reqCb.service reqCb.renew =
      Except.ok stA ∧
    okStore.pt_validate_ticket reqCb.ticket reqCb.service = Except.ok ptC ∧
    ((truthy reqCb.pgtUrl = true →
      validate_service_ticket okStore reqCb =
        (.ok (some stA, some (okStore.create_pgt_from_st reqCb.pgtUrl stA.user stA), none),
         [.pgt (okStore.create_pgt_from_st reqCb.pgtUrl stA.user stA)]) ∧
      (okStore.create_pgt_from_st reqCb.pgtUrl stA.user stA).granted_by_st = some stA ∧
      validate_proxy_ticket okStore reqCb =
        (.ok (some ptC, some (okStore.create_pgt_from_pt reqCb.pgtUrl ptC.user ptC),
          some (specProxyChain ptC), none),
         [.pgt (okStore.create_pgt_from_pt reqCb.pgtUrl ptC.user ptC)]) ∧
      (okStore.create_pgt_from_pt reqCb.pgtUrl ptC.user ptC).granted_by_pt = some ptC) ∧
    (truthy reqCb.pgtUrl = false →
      validate_service_ticket okStore reqCb = (.ok (some stA, none, none), []) ∧
      validate_proxy_ticket okStore reqCb =
        (.ok (some ptC, none, some (specProxyChain ptC), none), []))) :=
  ⟨rfl, rfl, pgt_issuance_iff_callback okStore reqCb stA ptC rfl rfl⟩

/-- C4: on a successful PGT validation, the validator creates exactly
one new `ProxyTicket` for the requested target service, owned by the
PGT's user and with `granted_by_pgt` set to the validated PGT, and
returns the pair (that ticket, no error). -/
theorem pgt_validator_issues_proxy_ticket (store : TicketStore) (request : Request)
    (pgt : ProxyGrantingTicket)
    (hv : store.pgt_validate_ticket request.pgt request.targetService = Except.ok pgt) :
    validate_proxy_granting_ticket store request =
      (.ok (some (store.create_proxy_ticket request.targetService pgt.user pgt), none),
       [.pt (store.create_proxy_ticket request.targetService pgt.user pgt)]) ∧
    (store.create_proxy_ticket request.targetService pgt.user pgt).service =
      request.targetService ∧
    (store.create_proxy_ticket request.targetService pgt.user pgt).user = pgt.user ∧
    (store.create_proxy_ticket request.targetService pgt.user pgt).granted_by_pgt =
      pgt := by
  refine ⟨?_, ?_, ?_, ?_⟩
  · simp [validate_proxy_granting_ticket, hv]
  · simp [TicketStore.create_proxy_ticket, ProxyTicket.service]
  · simp [TicketStore.create_proxy_ticket, ProxyTicket.user]
  · simp [TicketStore.create_proxy_ticket, ProxyTicket.granted_by_pgt]

/-- Witness for C4 on the concrete fixtures. -/
theorem pgt_validator_issues_proxy_ticket_witness :
    okStore.pgt_validate_ticket reqCb.pgt reqCb.targetService = Except.ok pgtFromA ∧
    (validate_proxy_granting_ticket okStore reqCb =
      (.ok (some (okStore.create_proxy_ticket reqCb.targetService pgtFromA.user pgtFromA),
        none),
       [.pt (okStore.create_proxy_ticket reqCb.targetService pgtFromA.user pgtFromA)]) ∧
    (okStore.create_proxy_ticket reqCb.targetService pgtFromA.user pgtFromA).service =
      reqCb.targetService ∧
    (okStore.create_proxy_ticket reqCb.targetService pgtFromA.user pgtFromA).user =
      pgtFromA.user ∧
    (okStore.create_proxy_ticket reqCb.targetService pgtFromA.user pgtFromA).granted_by_pgt =
      pgtFromA) :=
  ⟨rfl, pgt_validator_issues_proxy_ticket okStore reqCb pgtFromA rfl⟩

/-- C5: every derived ticket appearing in a validator's success result
carries the same owning user as the validated ticket or PGT that
authorized its creation. -/
theorem derived_ticket_user_invariant (store : TicketStore) (request : Request)
    (st : ServiceTicket) (pt : ProxyTicket) (pgt : ProxyGrantingTicket)
    (hst : store.st_validate_ticket request.ticket request.service request.renew =
      Except.ok st)
    (hpt : store.pt_validate_ticket request.ticket request.service = Except.ok pt)
    (hpgt : store.pgt_validate_ticket request.pgt request.targetService =
      Except.ok pgt) :
    (∀ (x : Option ServiceTicket) (pgtIssued : ProxyGrantingTicket)
      (y : Option CasError) (ev : List CreationEvent),
      validate_service_ticket store request = (.ok (x, some pgtIssued, y), ev) →
      pgtIssued.user = st.user) ∧
    (∀ (a : Option ProxyTicket) (pgtIssued : ProxyGrantingTicket)
      (b : Option (List (Option String))) (c : Option CasError)
      (ev : List CreationEvent),
      validate_proxy_ticket store request = (.ok (a, some pgtIssued, b, c), ev) →
      pgtIssued.user = pt.user) ∧
    (∀ (ptIssued : ProxyTicket) (y : Option CasError) (ev : List CreationEvent),
      validate_proxy_granting_ticket store request = (.ok (some ptIssued, y), ev) →
      ptIssued.user = pgt.user) := by
  refine ⟨?_, ?_, ?_⟩
  · intro x pgtIssued y ev heq
    cases htr : truthy request.pgtUrl <;>
      simp [validate_service_ticket, hst, htr] at heq
    obtain ⟨⟨-, hp, -⟩, -⟩ := heq
    simp [← hp, TicketStore.create_pgt_from_st, ProxyGrantingTicket.user]
  · intro a pgtIssued b c ev heq
    cases htr : truthy request.pgtUrl <;>
      simp [validate_proxy_ticket, hpt, htr] at heq
    obtain ⟨⟨-, hp, -⟩, -⟩ := heq
    simp [← hp, TicketStore.create_pgt_from_pt, ProxyGrantingTicket.user]
  · intro ptIssued y ev heq
    simp [validate_proxy_granting_ticket, hpgt] at heq
    obtain ⟨⟨hp, -⟩, -⟩ := heq
    simp [← hp, TicketStore.create_proxy_ticket, ProxyTicket.user]

/-- Witness for C5 on the concrete fixtures with a callback URL. -/
theorem derived_ticket_user_invariant_witness :
    okStore.st_validate_ticket reqCb.ticket reqCb.service reqCb.renew =
      Except.ok stA ∧
    okStore.pt_validate_ticket reqCb.ticket reqCb.service = Except.ok ptC ∧
    okStore.pgt_validate_ticket reqCb.pgt reqCb.targetService = Except.ok pgtFromA ∧
    ((∀ (x : Option ServiceTicket) (pgtIssued : ProxyGrantingTicket)
      (y : Option CasError) (ev : List CreationEvent),
      validate_service_ticket okStore reqCb = (.ok (x, some pgtIssued, y), ev) →
      pgtIssued.user = stA.user) ∧
    (∀ (a : Option ProxyTicket) (pgtIssued : ProxyGrantingTicket)
      (b : Option (List (Option String))) (c : Option CasError)
      (ev : List CreationEvent),
      validate_proxy_ticket okStore reqCb = (.ok (a, some pgtIssued, b, c), ev) →
      pgtIssued.user = ptC.user) ∧
    (∀ (ptIssued : ProxyTicket) (y : Option CasError) (ev : List CreationEvent),
      validate_proxy_granting_ticket okStore reqCb = (.ok (some ptIssued, y), ev) →
      ptIssued.user = pgtFromA.user)) :=
  ⟨rfl, rfl, rfl,
    derived_ticket_user_invariant okStore reqCb stA ptC pgtFromA rfl rfl rfl⟩

/-- C9: when the store's validation raises, the validator performs no
ticket-creation call at all, whether or not the error is caught and
whether or not a callback URL was supplied. -/
theorem no_creation_on_failure (store : TicketStore) (request : Request)
    (e1 e2 e3 : CasError)
    (h1 : store.st_validate_ticket request.ticket request.service request.renew =
      Except.error e1)
    (h2 : store.pt_validate_ticket request.ticket request.service = Except.error e2)
    (h3 : store.pgt_validate_ticket request.pgt request.targetService =
      Except.error e3) :
    (validate_service_ticket store request).2 = [] ∧
    (validate_proxy_ticket store request).2 = [] ∧
    (validate_proxy_granting_ticket store request).2 = [] := by
  refine ⟨?_, ?_, ?_⟩
  · cases hc : caughtByStPt e1 <;> simp [validate_service_ticket, h1, hc]
  · cases hc : caughtByStPt e2 <;> simp [validate_proxy_ticket, h2, hc]
  · cases hc : caughtByPgt e3 <;> simp [validate_proxy_granting_ticket, h3, hc]

/-- Witness for C9 on the failing store, with a callback URL supplied. -/
theorem no_creation_on_failure_witness :
    errStore.st_validate_ticket reqCb.ticket reqCb.service reqCb.renew =
      Except.error CasError.invalidTicket ∧
    errStore.pt_validate_ticket reqCb.ticket reqCb.service =
      Except.error CasError.internal ∧
    errStore.pgt_validate_ticket reqCb.pgt reqCb.targetService =
      Except.error CasError.badPGT ∧
    ((validate_service_ticket errStore reqCb).2 = [] ∧
    (validate_proxy_ticket errStore reqCb).2 = [] ∧
    (validate_proxy_granting_ticket errStore reqCb).2 = []) :=
  ⟨rfl, rfl, rfl, no_creation_on_failure errStore reqCb _ _ _ rfl rfl rfl⟩

/-- C6 counterexample: the claim says an unexpectedly-repeating
reference is treated as an `InternalError` rather than looping forever,
but on the concrete cyclic heap the loop produces no result within any
number of iterations — it never terminates, and in particular never
yields an `InternalError`. -/
theorem proxy_chain_loop_cycle_counterexample : cyclicLoopNeverReturns :=
  fun n => cyclicHeap_loop_none n [some "https://p.example"]

/-- C6 (amended): on every finite, acyclic back-reference chain the loop
terminates once the iteration bound exceeds the chain length and returns
the chain; the code has no bounded-iteration guard, and on a cyclic
`granted_by_pgt.granted_by_pt` reference it loops forever instead of
raising an `InternalError`. -/
theorem proxy_chain_loop_bounded_amended (h : Heap) (cur : Option Nat)
    (l acc : List (Option String)) (n : Nat)
    (hch : Chain h cur l) (hn : l.length + 1 ≤ n) :
    loopFuel h acc cur n = some (acc ++ l) ∧ cyclicLoopNeverReturns :=
  ⟨loopFuel_chain h hch acc n hn, fun k => cyclicHeap_loop_none k _⟩

/-- Witness for C6 (amended) on the concrete two-hop heap. -/
theorem proxy_chain_loop_bounded_amended_witness :
    Chain chainHeap (some 0) [some "https://c.example", some "https://b.example"] ∧
    ([some "https://c.example", some "https://b.example"] :
      List (Option String)).length + 1 ≤ 3 ∧
    (loopFuel chainHeap [] (some 0) 3 =
      some ([] ++ [some "https://c.example", some "https://b.example"]) ∧
     cyclicLoopNeverReturns) :=
  ⟨chainHeap_chain, by decide,
    proxy_chain_loop_bounded_amended chainHeap (some 0)
      [some "https://c.example", some "https://b.example"] [] 3
      chainHeap_chain (by decide)⟩

/-- C7: a null ticket input yields no result (`none`), while a non-null
ticket with zero configured attribute mappings yields the empty list. -/
theorem custom_attributes_none_vs_empty (settings : CasSettings) (t : AttrTicket)
    (h1 : settings.MAMA_CAS_USER_ATTRIBUTES = [])
    (h2 : settings.MAMA_CAS_PROFILE_ATTRIBUTES = []) :
    get_custom_attributes settings none = none ∧
    get_custom_attributes settings (some t) = some [] := by
  refine ⟨rfl, ?_⟩
  cases hp : t.user.profile <;>
    simp [get_custom_attributes, h1, h2, hp, collectAttrs]

/-- Witness for C7 on the default (empty) settings. -/
theorem custom_attributes_none_vs_empty_witness :
    emptySettings.MAMA_CAS_USER_ATTRIBUTES = [] ∧
    emptySettings.MAMA_CAS_PROFILE_ATTRIBUTES = [] ∧
    (get_custom_attributes emptySettings none = none ∧
     get_custom_attributes emptySettings (some bobTicket) = some []) :=
  ⟨rfl, rfl, custom_attributes_none_vs_empty emptySettings bobTicket rfl rfl⟩

/-- C8: attribute extraction is best-effort: a configured pair whose
field is absent on the user (or profile) object is skipped while the
remaining configured pairs are still returned, and a user with no linked
profile skips the whole profile list while still returning the
user-attribute results. -/
theorem custom_attributes_best_effort
    (ul1 ul2 pl1 pl2 ul pl : List (String × String))
    (t : AttrTicket) (name key : String) (p : Profile)
    (hmiss : t.user.attrs key = none)
    (hpmiss : p.attrs key = none) :
    (get_custom_attributes ⟨ul1 ++ (name, key) :: ul2, pl⟩ (some t) =
      get_custom_attributes ⟨ul1 ++ ul2, pl⟩ (some t)) ∧
    (t.user.profile = some p →
      get_custom_attributes ⟨ul, pl1 ++ (name, key) :: pl2⟩ (some t) =
      get_custom_attributes ⟨ul, pl1 ++ pl2⟩ (some t)) ∧
    (t.user.profile = none →
      get_custom_attributes ⟨ul, pl⟩ (some t) =
        some (collectAttrs t.user.attrs ul)) := by
  refine ⟨?_, ?_, ?_⟩
  · cases hp : t.user.profile <;>
      simp [get_custom_attributes, hp, collectAttrs_append, collectAttrs, hmiss]
  · intro hp
    simp [get_custom_attributes, hp, collectAttrs_append, collectAttrs, hpmiss]
  · intro hp
    simp [get_custom_attributes, hp]

/-- Witness for C8 on the concrete user, with a configured field that
exists on neither the user nor the profile. -/
theorem custom_attributes_best_effort_witness :
    bobTicket.user.attrs "missing" = none ∧
    bobProfile.attrs "missing" = none ∧
    ((get_custom_attributes
        ⟨[("Email", "email")] ++ ("Nope", "missing") :: [("Name", "username")],
          [("Phone", "phone")]⟩ (some bobTicket) =
      get_custom_attributes
        ⟨[("Email", "email")] ++ [("Name", "username")], [("Phone", "phone")]⟩
        (some bobTicket)) ∧
    (bobTicket.user.profile = some bobProfile →
      get_custom_attributes
        ⟨[("Email", "email")], [("Phone", "phone")] ++ ("Nope", "missing") :: []⟩
        (some bobTicket) =
      get_custom_attributes
        ⟨[("Email", "email")], [("Phone", "phone")] ++ []⟩ (some bobTicket)) ∧
    (bobTicket.user.profile = none →
      get_custom_attributes ⟨[("Email", "email")], [("Phone", "phone")]⟩
        (some bobTicket) =
        some (collectAttrs bobTicket.user.attrs [("Email", "email")]))) :=
  ⟨by decide, by decide,
    custom_attributes_best_effort [("Email", "email")] [("Name", "username")]
      [("Phone", "phone")] [] [("Email", "email")] [("Phone", "phone")]
      bobTicket "Nope" "missing" bobProfile (by decide) (by decide)⟩

/-- C10: for a non-null ticket the extractor deterministically returns
the successfully resolved user-attribute pairs in configured order,
followed by the successfully resolved profile-attribute pairs in
configured order, with skipped entries omitted. -/
theorem custom_attributes_order (settings : CasSettings) (t : AttrTicket) :
    get_custom_attributes settings (some t) =
      some (resolvedPairs t.user.attrs settings.MAMA_CAS_USER_ATTRIBUTES ++
        match t.user.profile with
        | none => []
        | some p => resolvedPairs p.attrs settings.MAMA_CAS_PROFILE_ATTRIBUTES) := by
  cases hp : t.user.profile <;>
    simp [get_custom_attributes, hp, collectAttrs_eq_resolvedPairs]

end MamaCas
